import Mathlib

/-!
Shallow embedding of the `emhacs` (VehicleVue) integration: the derived
metric calculator, the polling coordinator's update step, the sensor entity
views, and the poll cache described by the specification.  Optional Python
floats are modelled as `Option ℚ`, Python dicts as association lists, and
fallible remote calls as `Except` values supplied as inputs.
-/

/-- Fixed voltage used to convert charger amps to kW
(sensor.py: `ASSUMED_VOLTAGE = 240`). -/
def ASSUMED_VOLTAGE : ℚ := 240

/-- Round a rational to the nearest integer, ties to even, matching the
behaviour of Python `round` on exactly representable inputs. -/
def roundHalfEven (q : ℚ) : ℤ :=
  let n := ⌊q⌋
  let frac := q - n
  if frac < 1/2 then n
  else if 1/2 < frac then n + 1
  else if n % 2 = 0 then n else n + 1

/-- Python `round(x, 3)`: round to 3 decimal places. -/
def pyRound3 (q : ℚ) : ℚ := (roundHalfEven (q * 1000) : ℚ) / 1000

/-- Attribute values appearing in a sensor attribute dictionary. -/
inductive AttrVal where
  | str : String → AttrVal
  | rat : ℚ → AttrVal
  | int : ℤ → AttrVal
  | bool : Bool → AttrVal
  | absent : AttrVal
deriving DecidableEq, Repr

/-- Vehicle status as returned by the remote data source
(pyemvue vehicle status object). -/
structure VehicleStatus where
  battery_level : Option ℚ
  as_dictionary : List (String × AttrVal)
deriving DecidableEq, Repr

/-- Charger status as returned by the remote data source
(pyemvue `ChargerDevice`).  String fields the vendor may omit are `Option`. -/
structure ChargerDevice where
  device_gid : ℤ
  charger_on : Bool
  status : Option String
  message : Option String
  icon_label : Option String
  icon_detail_text : Option String
  fault_text : Option String
  charging_rate : Option ℚ
  max_charging_rate : ℚ
  load_gid : ℤ
  pro_control_code : Option String
  debug_code : Option String
deriving DecidableEq, Repr

/-- Container for Emporia vehicle and charger data: the snapshot published by
one successful refresh cycle (sensor.py `VehicleVueCoordinatorData`). -/
structure VehicleVueCoordinatorData where
  vehicle_status : List (ℤ × VehicleStatus)
  chargers : List (ℤ × ChargerDevice)
  charger_power_kw : List (ℤ × Option ℚ)
deriving DecidableEq, Repr

/-- Python `dict.get(k)`: first binding of `k` in an association list. -/
def dictGet {α : Type} (m : List (ℤ × α)) (k : ℤ) : Option α :=
  (m.find? (fun p => p.1 = k)).map Prod.snd

/-- Python truthiness fallback `s or d` for an optional string: `None` and
the empty string are falsy. -/
def pyOrStr (s : Option String) (d : String) : String :=
  match s with
  | none => d
  | some t => if t = "" then d else t

/-- sensor.py `ChargerPowerSensor._calculate_kw`: convert a charging rate in
amps to kW at the assumed voltage, propagating absence. -/
def calculate_kw (charging_rate : Option ℚ) : Option ℚ :=
  match charging_rate with
  | none => none
  | some r => some (pyRound3 (r * ASSUMED_VOLTAGE / 1000))

/-- The accumulation loop of `_get_live_power_kw`: running total of the
non-absent channel usages together with the has_data flag. -/
def sumChannelsLoop : List (Option ℚ) → ℚ × Bool → ℚ × Bool
  | [], st => st
  | c :: cs, (total, has) =>
    match c with
    | none => sumChannelsLoop cs (total, has)
    | some u => sumChannelsLoop cs (total + u, true)

/-- The channel-summation part of `_get_live_power_kw`: sum non-absent
1-second channel usages, absent when no channel reported, else
`round(total * 3600, 3)`. -/
def live_power_from_channels (channels : List (Option ℚ)) : Option ℚ :=
  let st := sumChannelsLoop channels (0, false)
  if st.2 then some (pyRound3 (st.1 * 3600)) else none

/-- Sum of the non-absent readings, written from the specification wording
(sums all non-absent channel readings) for comparison with the loop. -/
def sumNonAbsent (channels : List (Option ℚ)) : ℚ :=
  (channels.filterMap id).sum

/-- Usage record for one device: its per-channel 1-second kWh readings. -/
structure DeviceUsage where
  channels : List (Option ℚ)
deriving DecidableEq, Repr

/-- sensor.py `_get_live_power_kw`: the usage endpoint call may fail
(caught, yielding absent), may omit the device, or yields channel data. -/
def get_live_power_kw (usageResult : Except String (Option DeviceUsage)) : Option ℚ :=
  match usageResult with
  | .error _ => none
  | .ok none => none
  | .ok (some du) => live_power_from_channels du.channels

/-- The remote-call results one refresh cycle observes: the batch vehicle
fetch, the batch charger fetch, and the per-charger usage-endpoint call. -/
structure FetchResults where
  vehicle_fetch : Except String (List (ℤ × VehicleStatus))
  charger_fetch : Except String (List (ℤ × ChargerDevice))
  live_power_fetch : ℤ → Except String (Option DeviceUsage)

/-- The distinguishable update-failed condition raised by the coordinator,
carrying the underlying cause (sensor.py wraps the error in `UpdateFailed`). -/
structure UpdateFailed where
  cause : String
deriving DecidableEq, Repr

/-- sensor.py `VehicleVueDataCoordinator._async_update_data`: the two batch
fetches are attempted under one exception handler whose failure aborts the
cycle with `UpdateFailed`; then each known charger gets a live-power entry,
absent when the per-charger call fails. -/
def async_update_data (env : FetchResults) : Except UpdateFailed VehicleVueCoordinatorData :=
  match env.vehicle_fetch with
  | .error e => .error ⟨e⟩
  | .ok vehicle_status =>
    match env.charger_fetch with
    | .error e => .error ⟨e⟩
    | .ok chargers =>
      let charger_power :=
        chargers.map (fun p => (p.1, get_live_power_kw (env.live_power_fetch p.1)))
      .ok ⟨vehicle_status, chargers, charger_power⟩

/-- Publication step, following the host coordinator contract the spec
describes: a raised `UpdateFailed` is reported upward and the previous
snapshot (if any) is retained; on success the new snapshot atomically
replaces the old one. -/
def coordinator_refresh (data : Option VehicleVueCoordinatorData) (env : FetchResults) :
    Option VehicleVueCoordinatorData × Option UpdateFailed :=
  match async_update_data env with
  | .ok snap => (some snap, none)
  | .error e => (data, some e)

/-- sensor.py `VehicleSensor._latest_status`: the vehicle status from the
current snapshot, absent when no snapshot was ever published. -/
def VehicleSensor_latest_status (data : Option VehicleVueCoordinatorData)
    (vehicle_gid : ℤ) : Option VehicleStatus :=
  match data with
  | none => none
  | some d => dictGet d.vehicle_status vehicle_gid

/-- sensor.py `VehicleSensor.native_value`: the battery level of the latest
status, absent when there is no status. -/
def VehicleSensor_native_value (data : Option VehicleVueCoordinatorData)
    (vehicle_gid : ℤ) : Option ℚ :=
  match VehicleSensor_latest_status data vehicle_gid with
  | none => none
  | some s => s.battery_level

/-- sensor.py `VehicleSensor.extra_state_attributes`: the status dictionary,
empty when there is no status. -/
def VehicleSensor_extra_state_attributes (data : Option VehicleVueCoordinatorData)
    (vehicle_gid : ℤ) : List (String × AttrVal) :=
  match VehicleSensor_latest_status data vehicle_gid with
  | none => []
  | some s => s.as_dictionary

/-- sensor.py `_charger` (shared by both charger sensor classes): the charger
from the current snapshot, absent when no snapshot was ever published. -/
def charger_of (data : Option VehicleVueCoordinatorData)
    (charger_gid : ℤ) : Option ChargerDevice :=
  match data with
  | none => none
  | some d => dictGet d.chargers charger_gid

/-- The `live_kw` lookup both charger sensors perform: absent without a
snapshot, else `charger_power_kw.get(gid)` flattened. -/
def live_kw_of (data : Option VehicleVueCoordinatorData) (charger_gid : ℤ) : Option ℚ :=
  match data with
  | none => none
  | some d => (dictGet d.charger_power_kw charger_gid).join

/-- sensor.py `ChargerStatusSensor.native_value`: the reported status text,
falling back through Python `or` to on/off from the charger flag. -/
def ChargerStatusSensor_native_value (data : Option VehicleVueCoordinatorData)
    (charger_gid : ℤ) : Option String :=
  match charger_of data charger_gid with
  | none => none
  | some c => some (pyOrStr c.status (if c.charger_on then "on" else "off"))

/-- sensor.py `ChargerStatusSensor.charging_rate_display`: the raw charging
rate, or the string unknown when the charger is absent. -/
def ChargerStatusSensor_charging_rate_display (data : Option VehicleVueCoordinatorData)
    (charger_gid : ℤ) : AttrVal :=
  match charger_of data charger_gid with
  | none => .str "unknown"
  | some c =>
    match c.charging_rate with
    | none => .absent
    | some r => .rat r

/-- Lift an optional vendor string into an attribute value. -/
def optStrAttr : Option String → AttrVal
  | none => .absent
  | some s => .str s

/-- sensor.py `ChargerStatusSensor.extra_state_attributes`: empty without a
charger, else the diagnostic dictionary. -/
def ChargerStatusSensor_extra_state_attributes (data : Option VehicleVueCoordinatorData)
    (charger_gid : ℤ) : List (String × AttrVal) :=
  match charger_of data charger_gid with
  | none => []
  | some c =>
    [("charger_on", .bool c.charger_on),
     ("message", optStrAttr c.message),
     ("icon_label", optStrAttr c.icon_label),
     ("icon_detail_text", optStrAttr c.icon_detail_text),
     ("fault_text", optStrAttr c.fault_text),
     ("charging_rate", ChargerStatusSensor_charging_rate_display data charger_gid),
     ("max_charging_rate", .rat c.max_charging_rate),
     ("load_gid", .int c.load_gid),
     ("pro_control_code", optStrAttr c.pro_control_code),
     ("debug_code", optStrAttr c.debug_code),
     ("live_power_kw",
        match live_kw_of data charger_gid with
        | none => .absent
        | some v => .rat v)]

/-- sensor.py `ChargerPowerSensor.native_value`: absent without a charger in
the snapshot; else the live energy-delta power when present, otherwise the
amps-derived estimate. -/
def ChargerPowerSensor_native_value (data : Option VehicleVueCoordinatorData)
    (charger_gid : ℤ) : Option ℚ :=
  match charger_of data charger_gid with
  | none => none
  | some c =>
    match live_kw_of data charger_gid with
    | some v => some v
    | none => calculate_kw c.charging_rate

/-- sensor.py `ChargerPowerSensor.extra_state_attributes`: empty without a
charger, else the power diagnostic dictionary. -/
def ChargerPowerSensor_extra_state_attributes (data : Option VehicleVueCoordinatorData)
    (charger_gid : ℤ) : List (String × AttrVal) :=
  match charger_of data charger_gid with
  | none => []
  | some c =>
    [("max_charging_rate", .rat c.max_charging_rate),
     ("charger_on", .bool c.charger_on),
     ("status", optStrAttr c.status),
     ("raw_charging_rate_amps",
        match c.charging_rate with
        | none => .absent
        | some r => .rat r),
     ("assumed_voltage", .rat ASSUMED_VOLTAGE),
     ("live_power_kw",
        match live_kw_of data charger_gid with
        | none => .absent
        | some v => .rat v)]

/-- scripts/verify_charger.py `estimate_kw`: same amps-to-kW conversion as
the power sensor, propagating absence. -/
def estimate_kw (amps : Option ℚ) : Option ℚ :=
  match amps with
  | none => none
  | some a => some (pyRound3 (a * ASSUMED_VOLTAGE / 1000))

/-- Python truthiness fallback `r or 0` for an optional number. -/
def pyOrZero (r : Option ℚ) : ℚ :=
  match r with
  | none => 0
  | some v => v

/-- scripts/dev_check.py main loop, line 69: the printed amps-derived
estimate `round((c.charging_rate or 0) * 240 / 1000, 3)`. -/
def dev_check_est_kw (charging_rate : Option ℚ) : ℚ :=
  pyRound3 (pyOrZero charging_rate * 240 / 1000)

/-- Modelled from the spec: the Short-Lived Poll Cache of section 4.2 is
described by the specification but its implementation is not among the
provided source files.  It holds the last successful batch result and the
monotonic timestamp it was fetched. -/
structure PollCache (α : Type) where
  cached : Option α
  last_fetch_time : Option ℚ
deriving Repr

/-- Modelled from the spec: performing the underlying fetch on a cache miss
or expiry — on success store the result and timestamp, on failure leave the
cache unchanged and propagate the failure to the caller.  The third
component records that the underlying fetch function was invoked. -/
def cache_fetch {α ε : Type} (st : PollCache α) (now : ℚ) (fetch_fn : Except ε α) :
    Except ε α × PollCache α × Bool :=
  match fetch_fn with
  | .ok r => (.ok r, ⟨some r, some now⟩, true)
  | .error e => (.error e, st, true)

/-- Modelled from the spec: `get_or_fetch(now, fetch_fn, ttl_seconds)` — if
`now - last_fetch_time < ttl_seconds` and a cached result exists, return it
without calling `fetch_fn`; otherwise call `fetch_fn`. -/
def get_or_fetch {α ε : Type} (st : PollCache α) (now : ℚ) (fetch_fn : Except ε α)
    (ttl_seconds : ℚ) : Except ε α × PollCache α × Bool :=
  match st.cached, st.last_fetch_time with
  | some r, some t =>
    if now - t < ttl_seconds then (.ok r, st, false)
    else cache_fetch st now fetch_fn
  | _, _ => cache_fetch st now fetch_fn

/-- Example charger with a reported status text and a 16 A charging rate. -/
def chargerEx : ChargerDevice :=
  ⟨7, true, some "Charging", none, none, none, none, some 16, 40, 7, none, none⟩

/-- Example charger with no status text, switched off, no charging rate. -/
def chargerNoStatus : ChargerDevice :=
  ⟨8, false, none, none, none, none, none, none, 40, 8, none, none⟩

/-- Example vehicle status at 80 percent battery. -/
def vehicleEx : VehicleStatus := ⟨some 80, [("battery_level", AttrVal.rat 80)]⟩

/-- Example batch vehicle-status result. -/
def vsEx : List (ℤ × VehicleStatus) := [(1, vehicleEx)]

/-- Example batch charger-status result. -/
def chListEx : List (ℤ × ChargerDevice) := [(7, chargerEx), (8, chargerNoStatus)]

/-- Example per-channel usage record over the 1-second interval. -/
def duEx : DeviceUsage := ⟨[some (1/1000), none, some (1/2000)]⟩

/-- Example cycle where the live-power fetch fails for charger 7 only. -/
def envPartialFail : FetchResults :=
  ⟨.ok vsEx, .ok chListEx,
   fun g => if g = 7 then .error "usage endpoint down" else .ok (some duEx)⟩

/-- Example cycle where the batch vehicle-status fetch fails. -/
def envVehicleFail : FetchResults :=
  ⟨.error "vehicle batch down", .ok chListEx, fun _ => .ok none⟩

/-- Example cycle where the batch charger-status fetch fails. -/
def envChargerFail : FetchResults :=
  ⟨.ok vsEx, .error "charger batch down", fun _ => .ok none⟩

/-- Example cycle where every remote call succeeds but no channel reports. -/
def envAllOk : FetchResults := ⟨.ok vsEx, .ok chListEx, fun _ => .ok none⟩

/-- Example snapshot with a live-power measurement for charger 7. -/
def snapEx : VehicleVueCoordinatorData :=
  ⟨vsEx, chListEx, [(7, some (27/5)), (8, none)]⟩

/-- Example snapshot where no live-power measurement is available. -/
def snapNoLive : VehicleVueCoordinatorData :=
  ⟨vsEx, chListEx, [(7, none), (8, none)]⟩

theorem roundHalfEven_intCast (n : ℤ) : roundHalfEven (n : ℚ) = n := by
  simp [roundHalfEven]

theorem pyRound3_exact (q : ℚ) (n : ℤ) (h : q * 1000 = (n : ℚ)) :
    pyRound3 q = (n : ℚ) / 1000 := by
  rw [pyRound3, h, roundHalfEven_intCast]

theorem sumChannelsLoop_eq (cs : List (Option ℚ)) (t : ℚ) (h : Bool) :
    sumChannelsLoop cs (t, h) = (t + sumNonAbsent cs, h || cs.any Option.isSome) := by
  induction cs generalizing t h with
  | nil => simp [sumChannelsLoop, sumNonAbsent]
  | cons c cs ih =>
    cases c with
    | none => simp [sumChannelsLoop, sumNonAbsent, ih, List.filterMap_cons]
    | some u =>
      simp [sumChannelsLoop, sumNonAbsent, ih, List.filterMap_cons, add_assoc]

theorem live_power_all_absent (cs : List (Option ℚ)) (h : ∀ c ∈ cs, c = none) :
    live_power_from_channels cs = none := by
  have hany : cs.any Option.isSome = false := by
    by_contra hb
    rw [Bool.not_eq_false, List.any_eq_true] at hb
    obtain ⟨c, hc, hs⟩ := hb
    rw [h c hc] at hs
    simp at hs
  simp [live_power_from_channels, sumChannelsLoop_eq, hany]

/-- C1: for every non-absent charging rate a, the amps-to-power conversion
returns round(a * 240 / 1000, 3) with the assumed voltage fixed at 240, an
absent rate yields absent (16 A yields 3.84 kW), and the verification script
estimator agrees with the sensor conversion everywhere. -/
theorem C1_amps_to_power :
    (∀ a : ℚ, calculate_kw (some a) = some (pyRound3 (a * 240 / 1000))) ∧
    calculate_kw none = none ∧
    calculate_kw (some 16) = some (96/25) ∧
    (∀ a : Option ℚ, estimate_kw a = calculate_kw a) := by
  refine ⟨fun a => rfl, rfl, ?_, fun a => by cases a <;> rfl⟩
  show some (pyRound3 (16 * ASSUMED_VOLTAGE / 1000)) = some (96/25)
  rw [show ASSUMED_VOLTAGE = (240 : ℚ) from rfl, pyRound3_exact _ 3840 (by norm_num)]
  norm_num

/-- C2: the live-power estimate sums exactly the non-absent channel readings
and returns round(sum * 3600 / 1, 3) when at least one channel reported;
with zero reporting channels it is absent; channels 0.001, absent, 0.0005
yield 5.4 kW. -/
theorem C2_live_power_sum (cs : List (Option ℚ)) :
    ((∃ c ∈ cs, c ≠ none) →
      live_power_from_channels cs = some (pyRound3 (sumNonAbsent cs * 3600 / 1))) ∧
    ((∀ c ∈ cs, c = none) → live_power_from_channels cs = none) ∧
    live_power_from_channels [some (1/1000), none, some (1/2000)] = some (27/5) := by
  refine ⟨?_, live_power_all_absent cs, ?_⟩
  · rintro ⟨c, hc, hne⟩
    have hany : cs.any Option.isSome = true :=
      List.any_eq_true.mpr ⟨c, hc, Option.isSome_iff_ne_none.mpr hne⟩
    simp [live_power_from_channels, sumChannelsLoop_eq, hany]
  · have hsum : sumChannelsLoop [some (1/1000), none, some (1/2000)] (0, false)
        = (0 + 1/1000 + 1/2000, true) := by
      simp [sumChannelsLoop]
    rw [live_power_from_channels, hsum]
    simp only [if_pos]
    rw [pyRound3_exact _ 5400 (by norm_num)]
    norm_num

/-- C2 witness: the general summation law applied to a concrete channel
list containing a non-absent reading. -/
theorem C2_live_power_sum_witness :
    live_power_from_channels [some (1/1000), none, some (1/2000)] =
      some (pyRound3 (sumNonAbsent [some (1/1000), none, some (1/2000)] * 3600 / 1)) :=
  (C2_live_power_sum _).1 ⟨some (1/1000), by simp, by simp⟩

/-- C3: for every charger present in the snapshot, the published power value
is the live energy-delta measurement whenever it is present, and the
amps-derived estimate exactly when it is absent. -/
theorem C3_power_preference (d : VehicleVueCoordinatorData) (gid : ℤ) (c : ChargerDevice)
    (hc : dictGet d.chargers gid = some c) :
    (∀ v : ℚ, live_kw_of (some d) gid = some v →
      ChargerPowerSensor_native_value (some d) gid = some v) ∧
    (live_kw_of (some d) gid = none →
      ChargerPowerSensor_native_value (some d) gid = calculate_kw c.charging_rate) := by
  constructor
  · intro v hv
    simp [ChargerPowerSensor_native_value, charger_of, hc, hv]
  · intro hv
    simp [ChargerPowerSensor_native_value, charger_of, hc, hv]

/-- C3 witness: with a live measurement of 5.4 kW recorded for charger 7,
the published value is that measurement. -/
theorem C3_power_preference_witness :
    ChargerPowerSensor_native_value (some snapEx) 7 = some (27/5) :=
  (C3_power_preference snapEx 7 chargerEx rfl).1 (27/5) rfl

/-- C4: a failure of either batch fetch aborts the whole cycle with a
distinguishable update-failed condition carrying the underlying cause, and
the previously published snapshot is left unchanged. -/
theorem C4_batch_failure_aborts (st : Option VehicleVueCoordinatorData) (env : FetchResults) :
    (∀ e, env.vehicle_fetch = .error e →
      coordinator_refresh st env = (st, some (UpdateFailed.mk e))) ∧
    (∀ vs e, env.vehicle_fetch = .ok vs → env.charger_fetch = .error e →
      coordinator_refresh st env = (st, some (UpdateFailed.mk e))) := by
  constructor
  · intro e he
    simp [coordinator_refresh, async_update_data, he]
  · intro vs e hv he
    simp [coordinator_refresh, async_update_data, hv, he]

/-- C4 witness: a failing vehicle batch fetch leaves the previous snapshot
in place and reports the cause. -/
theorem C4_batch_failure_aborts_witness :
    coordinator_refresh (some snapEx) envVehicleFail =
      (some snapEx, some (UpdateFailed.mk "vehicle batch down")) :=
  (C4_batch_failure_aborts (some snapEx) envVehicleFail).1 "vehicle batch down" rfl

/-- C5: when the live-power fetch fails for charger X only, the cycle still
publishes a snapshot carrying the fetched vehicle statuses and charger
statuses unchanged, with an absent estimate for X and every other estimate
computed from its own fetch. -/
theorem C5_partial_failure_isolated (env : FetchResults) (vs : List (ℤ × VehicleStatus))
    (ch : List (ℤ × ChargerDevice)) (X : ℤ) (e : String)
    (hv : env.vehicle_fetch = .ok vs) (hc : env.charger_fetch = .ok ch)
    (hx : env.live_power_fetch X = .error e) :
    ∃ snap, async_update_data env = .ok snap ∧
      snap.vehicle_status = vs ∧ snap.chargers = ch ∧
      snap.charger_power_kw.map Prod.fst = ch.map Prod.fst ∧
      (∀ p ∈ snap.charger_power_kw, p.1 = X → p.2 = none) ∧
      (∀ p ∈ snap.charger_power_kw, p.1 ≠ X →
        p.2 = get_live_power_kw (env.live_power_fetch p.1)) := by
  refine ⟨⟨vs, ch, ch.map (fun p => (p.1, get_live_power_kw (env.live_power_fetch p.1)))⟩,
    ?_, rfl, rfl, ?_, ?_, ?_⟩
  · simp [async_update_data, hv, hc]
  · simp [List.map_map, Function.comp]
  · intro p hp hpx
    obtain ⟨q, hq, rfl⟩ := List.mem_map.mp hp
    dsimp at hpx ⊢
    rw [hpx, hx]
    rfl
  · intro p hp hpx
    obtain ⟨q, hq, rfl⟩ := List.mem_map.mp hp
    rfl

/-- C5 witness: with charger 7's usage endpoint failing, the snapshot keeps
both charger statuses and the vehicle status and gives 7 an absent estimate. -/
theorem C5_partial_failure_isolated_witness :
    ∃ snap, async_update_data envPartialFail = .ok snap ∧
      snap.vehicle_status = vsEx ∧ snap.chargers = chListEx ∧
      snap.charger_power_kw.map Prod.fst = chListEx.map Prod.fst ∧
      (∀ p ∈ snap.charger_power_kw, p.1 = 7 → p.2 = none) ∧
      (∀ p ∈ snap.charger_power_kw, p.1 ≠ 7 →
        p.2 = get_live_power_kw (envPartialFail.live_power_fetch p.1)) :=
  C5_partial_failure_isolated envPartialFail vsEx chListEx 7 "usage endpoint down" rfl rfl rfl

/-- C6: the poll cache returns the cached result without invoking the fetch
while the TTL has not elapsed, invokes the fetch on an empty or expired
cache (storing result and timestamp on success, leaving the cache unchanged
and propagating the failure otherwise), so two calls within the TTL return
the identical result with one underlying fetch and a later call fetches
again. -/
theorem C6_poll_cache {α : Type} (st : PollCache α) (now t t0 t1 ttl : ℚ) (r v : α)
    (f f2 : Except String α) (e : String) :
    (st.cached = some r → st.last_fetch_time = some t → now - t < ttl →
      get_or_fetch st now f ttl = (.ok r, st, false)) ∧
    (st.cached = some r → st.last_fetch_time = some t → ¬(now - t < ttl) →
      (f = .ok v → get_or_fetch st now f ttl = (.ok v, ⟨some v, some now⟩, true)) ∧
      (f = .error e → get_or_fetch st now f ttl = (.error e, st, true))) ∧
    (st.cached = none →
      (f = .ok v → get_or_fetch st now f ttl = (.ok v, ⟨some v, some now⟩, true)) ∧
      (f = .error e → get_or_fetch st now f ttl = (.error e, st, true))) ∧
    get_or_fetch (⟨none, none⟩ : PollCache α) t0 (Except.ok r : Except String α) ttl
      = (.ok r, ⟨some r, some t0⟩, true) ∧
    (t1 - t0 < ttl →
      get_or_fetch (⟨some r, some t0⟩ : PollCache α) t1 f2 ttl
        = (.ok r, ⟨some r, some t0⟩, false)) ∧
    (¬(t1 - t0 < ttl) →
      (get_or_fetch (⟨some r, some t0⟩ : PollCache α) t1 f2 ttl).2.2 = true) := by
  obtain ⟨cached, last⟩ := st
  refine ⟨?_, ?_, ?_, rfl, ?_, ?_⟩
  · intro h1 h2 h3
    dsimp at h1 h2
    subst h1; subst h2
    simp [get_or_fetch, h3]
  · intro h1 h2 h3
    dsimp at h1 h2
    subst h1; subst h2
    constructor
    · intro hf; subst hf
      simp [get_or_fetch, cache_fetch, h3]
    · intro hf; subst hf
      simp [get_or_fetch, cache_fetch, h3]
  · intro h1
    dsimp at h1
    subst h1
    constructor
    · intro hf; subst hf
      cases last <;> simp [get_or_fetch, cache_fetch]
    · intro hf; subst hf
      cases last <;> simp [get_or_fetch, cache_fetch]
  · intro h
    simp [get_or_fetch, h]
  · intro h
    cases f2 <;> simp [get_or_fetch, cache_fetch, h]

/-- C6 witness: a populated fetch at time 0 followed within the 2-second TTL
by a call whose underlying fetch would fail still returns the cached value
without invoking the fetch. -/
theorem C6_poll_cache_witness :
    get_or_fetch (⟨none, none⟩ : PollCache ℚ) 0 (Except.ok 5 : Except String ℚ) 2
      = (.ok 5, ⟨some 5, some 0⟩, true) ∧
    get_or_fetch (⟨some (5 : ℚ), some 0⟩ : PollCache ℚ) 1 (.error "remote call failed") 2
      = (.ok 5, ⟨some 5, some 0⟩, false) :=
  ⟨(C6_poll_cache ⟨none, none⟩ 0 0 0 1 2 5 5 (.ok 5) (.error "remote call failed")
      "remote call failed").2.2.2.1,
   (C6_poll_cache ⟨none, none⟩ 0 0 0 1 2 5 5 (.ok 5) (.error "remote call failed")
      "remote call failed").2.2.2.2.1 (by norm_num)⟩

/-- C7 counterexample: the dev_check script's printed estimate substitutes
zero for an absent charging rate, computing 0 rather than absence. -/
theorem C7_zero_substitution_counterexample : dev_check_est_kw none = 0 := by
  rw [dev_check_est_kw]
  show pyRound3 (0 * 240 / 1000) = 0
  rw [pyRound3_exact _ 0 (by norm_num)]
  norm_num

/-- C7 amended: within the integration and the verification script every
derived computation propagates absence (amps conversion, channel summation,
the published power view), but the dev_check script's printed amps estimate
substitutes zero for an absent charging rate. -/
theorem C7_absence_propagation_amended (cs : List (Option ℚ)) (h : ∀ c ∈ cs, c = none) :
    calculate_kw none = none ∧ estimate_kw none = none ∧
    live_power_from_channels cs = none ∧
    ChargerPowerSensor_native_value (some snapNoLive) 8 = none ∧
    dev_check_est_kw none = 0 := by
  refine ⟨rfl, rfl, live_power_all_absent cs h, rfl, ?_⟩
  rw [dev_check_est_kw]
  show pyRound3 (0 * 240 / 1000) = 0
  rw [pyRound3_exact _ 0 (by norm_num)]
  norm_num

/-- C7 amended witness: the amended statement at a concrete all-absent
channel list. -/
theorem C7_absence_propagation_amended_witness :
    calculate_kw none = none ∧ estimate_kw none = none ∧
    live_power_from_channels [none] = none ∧
    ChargerPowerSensor_native_value (some snapNoLive) 8 = none ∧
    dev_check_est_kw none = 0 :=
  C7_absence_propagation_amended [none] (by simp)

/-- C8: when no snapshot has ever been published, every entity view returns
an absent value and an empty attribute mapping rather than failing. -/
theorem C8_no_snapshot_views (g : ℤ) :
    VehicleSensor_native_value none g = none ∧
    VehicleSensor_extra_state_attributes none g = [] ∧
    ChargerStatusSensor_native_value none g = none ∧
    ChargerStatusSensor_extra_state_attributes none g = [] ∧
    ChargerPowerSensor_native_value none g = none ∧
    ChargerPowerSensor_extra_state_attributes none g = [] :=
  ⟨rfl, rfl, rfl, rfl, rfl, rfl⟩

/-- C9: every snapshot produced by a successful refresh cycle carries a
power-estimate entry for exactly the charger GIDs in its charger-status map. -/
theorem C9_estimate_keys_invariant (env : FetchResults) (snap : VehicleVueCoordinatorData)
    (h : async_update_data env = .ok snap) :
    snap.charger_power_kw.map Prod.fst = snap.chargers.map Prod.fst := by
  unfold async_update_data at h
  cases hv : env.vehicle_fetch with
  | error e => rw [hv] at h; cases h
  | ok vs =>
    cases hc : env.charger_fetch with
    | error e => rw [hv, hc] at h; cases h
    | ok ch =>
      rw [hv, hc] at h
      cases h
      simp [List.map_map, Function.comp]

/-- C9 witness: the invariant on the snapshot produced from a concrete
successful cycle. -/
theorem C9_estimate_keys_invariant_witness :
    snapNoLive.charger_power_kw.map Prod.fst = snapNoLive.chargers.map Prod.fst :=
  C9_estimate_keys_invariant envAllOk snapNoLive rfl

/-- C10: for a charger in the snapshot whose status text is absent or empty,
the status view reports on or off from the charger flag instead of absence. -/
theorem C10_status_fallback (d : VehicleVueCoordinatorData) (gid : ℤ) (c : ChargerDevice)
    (hc : dictGet d.chargers gid = some c) (hs : c.status = none ∨ c.status = some "") :
    ChargerStatusSensor_native_value (some d) gid =
      some (if c.charger_on then "on" else "off") := by
  rcases hs with hs | hs <;>
    simp [ChargerStatusSensor_native_value, charger_of, hc, pyOrStr, hs]

/-- C10 witness: charger 8 reports no status text and its flag is off, so
the view publishes off. -/
theorem C10_status_fallback_witness :
    ChargerStatusSensor_native_value (some snapNoLive) 8 = some "off" :=
  C10_status_fallback snapNoLive 8 chargerNoStatus rfl (Or.inl rfl)
